import Mathlib

/-!
Shallow embedding of `src/notebooks/project_imports.py` (a small toolkit of
pandas helper functions) and verification of its specification claims.

Python dataframes are modelled as lists of named, typed columns together with
an optional named row index (the index produced by a group-by).  Python
dynamic values that the code inspects at runtime (the `reset_index` kwarg, a
`str`-or-`list` argument) are modelled by small sum types.  Fallible Python
code (exceptions) is modelled with `Except`; `warnings.warn` calls are
modelled by a list of warning strings threaded through the result.
-/

/-- A cell value of a dataframe: strings, exact numbers (Python ints/floats
are modelled by rationals, which represent every value appearing in the
claims exactly), and dates. -/
inductive Value where
  | str (s : String)
  | num (q : Rat)
  | date (y mo d : Nat)
deriving DecidableEq, Repr

/-- Column dtypes, as far as the code inspects them (`select_dtypes` looks
for datetime64 columns). -/
inductive DType where
  | intT
  | floatT
  | objT
  | dateT
deriving DecidableEq, Repr

/-- A dataframe column.  `label` is a two-level column label; for a frame
whose column axis is a flat index the second component is `""` and unused. -/
structure Col where
  label : String × String
  dtype : DType
  values : List Value
deriving DecidableEq, Repr

/-- A pandas DataFrame: a (possibly empty) named row index (as produced by
`groupby`), a flag telling whether the column axis is a two-level
MultiIndex, and the data columns. -/
structure DataFrame where
  indexCols : List Col
  multiCols : Bool
  cols : List Col
deriving DecidableEq, Repr

/-- Number of rows (length of the first column, as all columns of a
well-formed frame share one length). -/
def DataFrame.nrows (df : DataFrame) : Nat :=
  match df.cols with
  | [] => 0
  | c :: _ => c.values.length

/-- Python `name in df.columns` membership test (first level of the label). -/
def DataFrame.hasColName (df : DataFrame) (a : String) : Bool :=
  df.cols.any (fun c => c.label.1 == a)

/-- First-level names of the data columns. -/
def DataFrame.colNames (df : DataFrame) : List String :=
  df.cols.map (fun c => c.label.1)

/-- Python exceptions raised (or assertion failures hit) by the code. -/
inductive PyError where
  | assertionError
  | typeError
  | keyError (k : String)
  | valueError (msg : String)
  | indexError
deriving DecidableEq, Repr

/-- Effect-free `mapM` over `Except`, with proof-friendly structural
recursion. -/
def mapExcept (f : α → Except ε β) : List α → Except ε (List β)
  | [] => .ok []
  | a :: as =>
    match f a with
    | .error e => .error e
    | .ok b =>
      match mapExcept f as with
      | .error e => .error e
      | .ok bs => .ok (b :: bs)

/-! ## DirectoryMapper -/

/-- `pathlib`-style path join (`p / q`). -/
def joinPath (a b : String) : String := a ++ "/" ++ b

/-- `DirectoryMapper.__init__` stores the project name and base directory;
every mapped folder is a pure join of the two (see the field-like
definitions below). -/
structure DirectoryMapper where
  project_name : String
  base_dir : String
deriving DecidableEq, Repr

def DirectoryMapper.project_dir (m : DirectoryMapper) : String :=
  joinPath m.base_dir m.project_name

def DirectoryMapper.config_path (m : DirectoryMapper) : String :=
  joinPath m.project_dir "configs"

def DirectoryMapper.sql_dir (m : DirectoryMapper) : String :=
  joinPath m.project_dir "sql"

def DirectoryMapper.data_dir (m : DirectoryMapper) : String :=
  joinPath m.project_dir "data"

def DirectoryMapper.raw_data_dir (m : DirectoryMapper) : String :=
  joinPath m.data_dir "raw"

def DirectoryMapper.interim_data_dir (m : DirectoryMapper) : String :=
  joinPath m.data_dir "interim"

def DirectoryMapper.processed_data_dir (m : DirectoryMapper) : String :=
  joinPath m.data_dir "processed"

def DirectoryMapper.external_data_dir (m : DirectoryMapper) : String :=
  joinPath m.data_dir "external"

def DirectoryMapper.model_dir (m : DirectoryMapper) : String :=
  joinPath m.project_dir "models"

def DirectoryMapper.output_dir (m : DirectoryMapper) : String :=
  joinPath m.project_dir "reports"

/-- The terminal file read performed by `load_data`: which pandas reader is
dispatched to and with which resolved path.  The read itself is external
I/O, so the embedding returns this action descriptor. -/
inductive ReadAction where
  | readParquet (path : String)
  | readCsv (path : String)
deriving DecidableEq, Repr

/-- `DirectoryMapper.load_data`.  `file_type[0]` on an empty string raises
`IndexError` in Python, modelled by the first guard; the leading `'.'` is
stripped, path resolution branches on `level` exactly as the `elif` chain
does, and the final dispatch branches on the (stripped) `file_type`. -/
def DirectoryMapper.load_data (m : DirectoryMapper) (file_name : String)
    (level : Option String) (file_type : String) : Except PyError ReadAction :=
  if file_type = "" then .error .indexError
  else
    let ft := if file_type.front = '.' then file_type.drop 1 else file_type
    let fname := file_name ++ "." ++ ft
    let resolved : Except PyError String :=
      match level with
      | none => .ok fname
      | some lv =>
        if lv = "raw" then .ok (joinPath m.raw_data_dir fname)
        else if lv = "interim" then .ok (joinPath m.interim_data_dir fname)
        else if lv = "processed" then .ok (joinPath m.processed_data_dir fname)
        else if lv = "external" then .ok (joinPath m.external_data_dir fname)
        else .error (.valueError "Please provide valid level")
    match resolved with
    | .error e => .error e
    | .ok p =>
      if ft = "parquet" then .ok (.readParquet p)
      else if ft = "csv" then .ok (.readCsv p)
      else .error (.valueError "Provide valid file type")

/-- The data-level directory of the layout keyed by a valid `level`. -/
def DirectoryMapper.levelDir (m : DirectoryMapper) (lv : String) : String :=
  if lv = "raw" then m.raw_data_dir
  else if lv = "interim" then m.interim_data_dir
  else if lv = "processed" then m.processed_data_dir
  else m.external_data_dir

/-- The reader dispatched to for a (stripped) file type in {parquet, csv}. -/
def mkRead (ft p : String) : ReadAction :=
  if ft = "parquet" then .readParquet p else .readCsv p

/-! ## groupby_and_agg -/

/-- The duck-typed `groupby_cols` argument: a single column name or a list
of column names. -/
inductive StrOrStrList where
  | one (s : String)
  | many (l : List String)
deriving DecidableEq, Repr

/-- The key list actually used by `df.groupby(...)` (a single name groups
like a one-element list). -/
def StrOrStrList.toKeyList : StrOrStrList → List String
  | .one s => [s]
  | .many l => l

/-- One entry of an aggregation dict: a single function name or a list of
function names. -/
inductive AggFuncSpec where
  | single (f : String)
  | multi (fs : List String)
deriving DecidableEq, Repr

/-- The duck-typed `agg_` argument: a column-to-aggregation dict (modelled
as an association list in insertion order) or a single function name applied
to every non-key column. -/
inductive AggArg where
  | dictSpec (entries : List (String × AggFuncSpec))
  | strSpec (f : String)
deriving DecidableEq, Repr

/-- A dynamic Python value, as far as `assert type(x) == bool` inspects it. -/
inductive PyVal where
  | boolV (b : Bool)
  | intV (n : Int)
  | strV (s : String)
  | noneV
deriving DecidableEq, Repr

def PyVal.isBool : PyVal → Bool
  | .boolV _ => true
  | _ => false

def Value.isNum : Value → Bool
  | .num _ => true
  | _ => false

def Value.isStr : Value → Bool
  | .str _ => true
  | _ => false

def Value.numOf : Value → Rat
  | .num q => q
  | _ => 0

def Value.strOf : Value → String
  | .str s => s
  | _ => ""

/-- Rank used to order heterogeneous values when sorting group keys. -/
def Value.rank : Value → Nat
  | .num _ => 0
  | .str _ => 1
  | .date _ _ _ => 2

/-- Boolean total order on values (ascending, as pandas sorts group keys by
default). -/
def Value.leB (a b : Value) : Bool :=
  match a, b with
  | .num x, .num y => decide (x ≤ y)
  | .str x, .str y => decide (x ≤ y)
  | .date y1 m1 d1, .date y2 m2 d2 =>
      decide (y1 * 10000 + m1 * 100 + d1 ≤ y2 * 10000 + m2 * 100 + d2)
  | a, b => decide (a.rank ≤ b.rank)

/-- Lexicographic lift of a boolean order to lists (key tuples). -/
def listLeB (le : α → α → Bool) : List α → List α → Bool
  | [], _ => true
  | _ :: _, [] => false
  | a :: as, b :: bs =>
    if le a b then
      if le b a then listLeB le as bs else true
    else false

def insertSorted (le : α → α → Bool) (x : α) : List α → List α
  | [] => [x]
  | y :: ys => if le x y then x :: y :: ys else y :: insertSorted le x ys

/-- Insertion sort by a boolean order. -/
def sortByB (le : α → α → Bool) : List α → List α
  | [] => []
  | x :: xs => insertSorted le x (sortByB le xs)

/-- Deduplication keeping first occurrences. -/
def dedupAux [DecidableEq α] (seen : List α) : List α → List α
  | [] => []
  | x :: xs => if x ∈ seen then dedupAux seen xs else x :: dedupAux (x :: seen) xs

def dedupFirst [DecidableEq α] (l : List α) : List α := dedupAux [] l

/-- An aggregation function applied to the values of one group, mirroring
the pandas primitives the repository uses: `sum` adds numbers (and
concatenates strings, as pandas does), `mean` averages numbers.  Other
function names are outside the model and error out. -/
def aggApply (f : String) (vs : List Value) : Except PyError Value :=
  if f = "sum" then
    if vs.all Value.isNum then
      .ok (.num ((vs.map Value.numOf).foldl (fun a b => a + b) 0))
    else if vs.all Value.isStr then
      .ok (.str ((vs.map Value.strOf).foldl (fun a b => a ++ b) ""))
    else .error .typeError
  else if f = "mean" then
    if vs.all Value.isNum && !vs.isEmpty then
      .ok (.num (((vs.map Value.numOf).foldl (fun a b => a + b) 0) / (vs.length : Rat)))
    else .error .typeError
  else .error (.valueError "unsupported aggregation function in model")

/-- Key tuple of row `i` under the given key columns. -/
def rowKeyVals (keyCols : List Col) (i : Nat) : List Value :=
  keyCols.map (fun c => c.values.getD i (.num 0))

/-- Indices of the rows belonging to the group with key tuple `k`. -/
def groupRowsIdx (keyCols : List Col) (n : Nat) (k : List Value) : List Nat :=
  (List.range n).filter (fun i => rowKeyVals keyCols i == k)

/-- Simple dtype inference for an aggregated column. -/
def inferDType (vs : List Value) : DType :=
  if vs.all Value.isNum then DType.floatT else DType.objT

/-- Aggregate one data column over every group (`ks` are the sorted distinct
key tuples). -/
def aggColumn (f : String) (col : Col) (keyCols : List Col) (n : Nat)
    (ks : List (List Value)) : Except PyError (List Value) :=
  mapExcept
    (fun k => aggApply f ((groupRowsIdx keyCols n k).map (fun i => col.values.getD i (.num 0))))
    ks

/-- `df.groupby(keys).agg(agg_)`: group keys must be existing columns (else
`KeyError`); distinct key tuples are sorted ascending (the pandas default);
a dict spec with any list-valued entry yields a two-level column structure
labelled `(column, function)`, an all-scalar dict yields flat labels; a
plain function name aggregates every non-key column with flat labels.  The
group keys become the (named) row index of the result. -/
def groupbyAgg (df : DataFrame) (keys : List String) (agg_ : AggArg) :
    Except PyError DataFrame :=
  if keys.isEmpty then .error (.valueError "No group keys passed") else
  match mapExcept (fun k =>
      match df.cols.find? (fun c => c.label.1 == k) with
      | some c => Except.ok c
      | none => Except.error (PyError.keyError k)) keys with
  | .error e => .error e
  | .ok keyCols =>
    let n := df.nrows
    let ks := sortByB (listLeB Value.leB)
      (dedupFirst ((List.range n).map (fun i => rowKeyVals keyCols i)))
    let idxCols : List Col := keyCols.enum.map (fun p =>
      { label := (p.2.label.1, ""), dtype := p.2.dtype,
        values := ks.map (fun k => k.getD p.1 (.num 0)) })
    match agg_ with
    | .strSpec f =>
      match mapExcept (fun c =>
          match aggColumn f c keyCols n ks with
          | .error e => Except.error e
          | .ok vs => Except.ok
              { label := (c.label.1, ""), dtype := inferDType vs, values := vs })
        (df.cols.filter (fun c => !(keys.contains c.label.1))) with
      | .error e => .error e
      | .ok outCols => .ok { indexCols := idxCols, multiCols := false, cols := outCols }
    | .dictSpec entries =>
      let multiAny := entries.any (fun e =>
        match e.2 with
        | .multi _ => true
        | .single _ => false)
      match mapExcept (fun e =>
          match df.cols.find? (fun c => c.label.1 == e.1) with
          | none => Except.error (PyError.keyError e.1)
          | some c =>
            let fs := match e.2 with
              | .single f => [f]
              | .multi fs => fs
            mapExcept (fun f =>
                match aggColumn f c keyCols n ks with
                | .error er => Except.error er
                | .ok vs => Except.ok
                    { label := if multiAny then (c.label.1, f) else (c.label.1, ""),
                      dtype := inferDType vs, values := vs }) fs) entries with
      | .error e => .error e
      | .ok colGroups =>
        .ok { indexCols := idxCols, multiCols := multiAny, cols := colGroups.flatten }

/-- `df.reset_index()` on an aggregated frame: the named index columns
become leading regular columns. -/
def DataFrame.resetIndexOp (df : DataFrame) : DataFrame :=
  { indexCols := [], multiCols := df.multiCols, cols := df.indexCols ++ df.cols }

/-- Python `s.removesuffix("_")`: drop one trailing underscore if present. -/
def removeSuffixUnderscore (s : String) : String :=
  if s.data.getLast? = some '_' then String.mk s.data.dropLast else s

/-- `'_'.join(col)` followed by `removesuffix("_")` on a two-level label. -/
def collapseLabel (l : String × String) : String :=
  removeSuffixUnderscore (l.1 ++ "_" ++ l.2)

/-- The column-collapsing step: on a MultiIndex flatten every label (and the
column axis becomes flat); otherwise warn and do nothing. -/
def collapseColumns (df : DataFrame) : List String × DataFrame :=
  if df.multiCols then
    ([], { indexCols := df.indexCols, multiCols := false,
           cols := df.cols.map (fun c => { c with label := (collapseLabel c.label, "") }) })
  else
    (["No MultiIndex detected. No column collapse wil be performed"], df)

/-- Lookup of one requested column name: every data column whose
first-level label equals it (`KeyError` when none does). -/
def pickCols (df : DataFrame) (nm : String) : Except PyError (List Col) :=
  match df.cols.filter (fun c => c.label.1 == nm) with
  | [] => .error (.keyError nm)
  | cs => .ok cs

/-- Python `df[names]` column selection. -/
def DataFrame.select (df : DataFrame) (names : List String) : Except PyError DataFrame :=
  match mapExcept (pickCols df) names with
  | .error e => .error e
  | .ok picked => .ok { df with cols := picked.flatten }

/-- Validation at the top of `groupby_and_agg`: every key of a dict spec
must be a column of the frame. -/
def aggKeysOk (df : DataFrame) (agg_ : AggArg) : Bool :=
  match agg_ with
  | .dictSpec entries => entries.all (fun e => df.hasColName e.1)
  | .strSpec _ => true

/-- The `reset_index` kwarg handling: absent defaults to `true`; present
values are asserted to be `bool`. -/
def checkResetIndexKw : Option PyVal → Except PyError Bool
  | none => .ok true
  | some (.boolV b) => .ok b
  | some _ => .error .assertionError

/-- Grouping, aggregation, optional index reset and optional column
collapse, in the order the code performs them (lines 207-219), with the
warnings emitted along the way. -/
def aggPipeline (df : DataFrame) (keys : List String) (agg_ : AggArg)
    (collapse_multicolumn ri : Bool) : List String × Except PyError DataFrame :=
  match groupbyAgg df keys agg_ with
  | .error e => ([], .error e)
  | .ok dfa =>
    let dfa1 := if ri then dfa.resetIndexOp else dfa
    if collapse_multicolumn then
      let p := collapseColumns dfa1
      (p.1, .ok p.2)
    else ([], .ok dfa1)

/-- `groupby_and_agg`.  The result pairs the warnings printed with either
the returned frame or the exception raised.  Control flow mirrors the
source: dict-key validation first (fail-soft return of the original frame),
then the `reset_index` kwarg assert, then the pipeline, then column
narrowing: with `return_cols` given and the index reset, `groupby_cols +
return_cols` is a Python `+` on the raw argument, a `TypeError` when
`groupby_cols` is a single string. -/
def groupby_and_agg (df : DataFrame) (groupby_cols : StrOrStrList) (agg_ : AggArg)
    (collapse_multicolumn : Bool) (return_cols : Option (List String))
    (kw_reset_index : Option PyVal) : List String × Except PyError DataFrame :=
  if aggKeysOk df agg_ then
    match checkResetIndexKw kw_reset_index with
    | .error e => ([], .error e)
    | .ok ri =>
      match aggPipeline df groupby_cols.toKeyList agg_ collapse_multicolumn ri with
      | (ws, .error e) => (ws, .error e)
      | (ws, .ok dfa) =>
        match return_cols with
        | none =>
          if dfa.multiCols then (ws, .ok dfa)
          else (ws, dfa.select dfa.colNames)
        | some rcs =>
          if ri then
            match groupby_cols with
            | .one _ => (ws, .error .typeError)
            | .many gl => (ws, dfa.select (gl ++ rcs))
          else (ws, dfa.select rcs)
  else
    (["Invalid column name passed in agg_ argument - returning original DataFrame"], .ok df)

/-! ## create_date_parts -/

/-- `.dt.year` of a cell (only applied to datetime columns by the code). -/
def Value.yearOf : Value → Value
  | .date y _ _ => .num (y : Rat)
  | _ => .num 0

/-- `.dt.month` of a cell. -/
def Value.monthOf : Value → Value
  | .date _ mo _ => .num (mo : Rat)
  | _ => .num 0

/-- Python column assignment `df[name] = values`: overwrite a column of that
name in place if present, otherwise append at the end. -/
def DataFrame.setCol (df : DataFrame) (name : String) (dt : DType) (vs : List Value) :
    DataFrame :=
  if df.cols.any (fun c => c.label.1 == name) then
    { df with cols := df.cols.map (fun c =>
        if c.label.1 == name then { label := (name, ""), dtype := dt, values := vs } else c) }
  else
    { df with cols := df.cols ++ [{ label := (name, ""), dtype := dt, values := vs }] }

/-- Current values of the column named `c` (Python `df[c]`). -/
def DataFrame.colValues (df : DataFrame) (c : String) : List Value :=
  match df.cols.find? (fun cc => cc.label.1 == c) with
  | some cc => cc.values
  | none => []

/-- The inner loop body of `create_date_parts` for one datetime column `c`:
assign `c_YEAR` from the current `df[c]`, then `c_MONTH` (year before
month, re-reading the frame as the code does). -/
def addDateParts (acc : DataFrame) (c : String) : DataFrame :=
  let acc1 := acc.setCol (c ++ "_YEAR") DType.intT ((acc.colValues c).map Value.yearOf)
  acc1.setCol (c ++ "_MONTH") DType.intT ((acc1.colValues c).map Value.monthOf)

/-- `create_date_parts`: scan the columns typed datetime64, derive
`_YEAR`/`_MONTH` integer columns for each in column order, then drop the
original datetime columns when asked to. -/
def create_date_parts (df : DataFrame) (drop_date_cols : Bool) : DataFrame :=
  let date_cols := (df.cols.filter (fun c => c.dtype == DType.dateT)).map (fun c => c.label.1)
  let df2 := date_cols.foldl (fun acc c => addDateParts acc c) df
  if drop_date_cols then
    { df2 with cols := df2.cols.filter (fun c => !(date_cols.contains c.label.1)) }
  else df2

/-! ## Concrete frames used by the example claims and witnesses -/

/-- The spec's running example: rows (g=a, x=1), (g=a, x=3), (g=b, x=5). -/
def dfGX : DataFrame :=
  { indexCols := [], multiCols := false,
    cols := [
      { label := ("g", ""), dtype := .objT, values := [.str "a", .str "a", .str "b"] },
      { label := ("x", ""), dtype := .intT, values := [.num 1, .num 3, .num 5] } ] }

/-- A small frame with a single datetime column `d` plus a numeric column. -/
def dfDates : DataFrame :=
  { indexCols := [], multiCols := false,
    cols := [
      { label := ("d", ""), dtype := .dateT,
        values := [.date 2018 2 1, .date 2017 11 5] },
      { label := ("x", ""), dtype := .intT, values := [.num 1, .num 2] } ] }

/-! ## Helper lemmas -/

theorem removeSuffixUnderscore_concat (s : String) :
    removeSuffixUnderscore (s ++ "_") = s := by
  unfold removeSuffixUnderscore
  have hd : (s ++ "_").data = s.data ++ ['_'] := by
    rw [String.data_append]
  rw [hd, List.getLast?_concat, List.dropLast_concat, if_pos rfl]

theorem removeSuffixUnderscore_of_no_underscore (s : String)
    (h : s.data.getLast? ≠ some '_') :
    removeSuffixUnderscore s = s := by
  unfold removeSuffixUnderscore
  rw [if_neg h]

theorem string_ne_of_data_ne_nil (s : String) (h : s ≠ "") : s.data ≠ [] := by
  intro hd
  apply h
  cases s
  simp only [String.data] at hd
  rw [hd]

theorem collapseLabel_eq (name func : String) (hf : func.data.getLast? ≠ some '_') :
    collapseLabel (name, func) = if func = "" then name else name ++ "_" ++ func := by
  by_cases hfe : func = ""
  · subst hfe
    rw [if_pos rfl]
    show removeSuffixUnderscore (name ++ "_" ++ "") = name
    rw [String.append_empty]
    exact removeSuffixUnderscore_concat name
  · rw [if_neg hfe]
    show removeSuffixUnderscore (name ++ "_" ++ func) = name ++ "_" ++ func
    apply removeSuffixUnderscore_of_no_underscore
    have hnil : func.data ≠ [] := string_ne_of_data_ne_nil func hfe
    rw [String.data_append, List.getLast?_append]
    cases hl : func.data.getLast? with
    | none => exact absurd (List.getLast?_eq_none_iff.mp hl) hnil
    | some c =>
      rw [hl] at hf
      simpa using hf

theorem pickCols_of_singleton (df : DataFrame) (nm : String) (c : Col)
    (hc : df.cols.filter (fun cc => cc.label.1 == nm) = [c]) :
    pickCols df nm = .ok [c] := by
  unfold pickCols
  rw [hc]

theorem mapExcept_pick_of_unique (df : DataFrame) (names : List String)
    (h : ∀ nm ∈ names, (df.cols.filter (fun c => c.label.1 == nm)).length = 1) :
    ∃ picked : List (List Col),
      mapExcept (pickCols df) names = .ok picked ∧
      picked.flatten.map (fun c => c.label.1) = names := by
  induction names with
  | nil => exact ⟨[], rfl, rfl⟩
  | cons nm rest ih =>
    obtain ⟨c, hc⟩ := List.length_eq_one.mp (h nm (List.mem_cons_self _ _))
    obtain ⟨picked, hp, hflat⟩ := ih (fun m hm => h m (List.mem_cons_of_mem _ hm))
    refine ⟨[c] :: picked, ?_, ?_⟩
    · unfold mapExcept
      rw [pickCols_of_singleton df nm c hc, hp]
    · have hcmem : c ∈ df.cols.filter (fun cc => cc.label.1 == nm) := by
        rw [hc]; exact List.mem_singleton_self c
      have hcl : c.label.1 = nm := by
        have := (List.mem_filter.mp hcmem).2
        exact eq_of_beq this
      simp [hcl, hflat]

theorem select_of_unique (df : DataFrame) (names : List String)
    (h : ∀ nm ∈ names, (df.cols.filter (fun c => c.label.1 == nm)).length = 1) :
    ∃ cs : List Col, df.select names = .ok { df with cols := cs } ∧
      cs.map (fun c => c.label.1) = names := by
  obtain ⟨picked, hp, hflat⟩ := mapExcept_pick_of_unique df names h
  refine ⟨picked.flatten, ?_, hflat⟩
  unfold DataFrame.select
  rw [hp]

theorem list_any_congr (l : List α) (p q : α → Bool) (h : ∀ a ∈ l, p a = q a) :
    l.any p = l.any q := by
  induction l with
  | nil => rfl
  | cons a as ih =>
    rw [List.any_cons, List.any_cons, h a (List.mem_cons_self _ _),
      ih (fun b hb => h b (List.mem_cons_of_mem _ hb))]

theorem setCol_any_self (df : DataFrame) (n : String) (dt : DType) (vs : List Value)
    (q : Col → Bool) (hq : q { label := (n, ""), dtype := dt, values := vs } = true) :
    (df.setCol n dt vs).cols.any q = true := by
  unfold DataFrame.setCol
  by_cases h : df.cols.any (fun c => c.label.1 == n)
  · rw [if_pos h]
    obtain ⟨c, hc, hcn⟩ := List.any_eq_true.mp h
    apply List.any_eq_true.mpr
    refine ⟨if c.label.1 == n then { label := (n, ""), dtype := dt, values := vs } else c,
      List.mem_map_of_mem _ hc, ?_⟩
    rw [if_pos hcn]
    exact hq
  · rw [if_neg h]
    simp [List.any_append, hq]

theorem setCol_any_of_name_ne (df : DataFrame) (n : String) (dt : DType) (vs : List Value)
    (q : Col → Bool) (hnew : ∀ c : Col, c.label.1 = n → q c = false) :
    (df.setCol n dt vs).cols.any q = df.cols.any q := by
  unfold DataFrame.setCol
  by_cases h : df.cols.any (fun c => c.label.1 == n)
  · rw [if_pos h]
    rw [List.any_map]
    apply list_any_congr
    intro c _
    simp only [Function.comp]
    by_cases hc : c.label.1 == n
    · rw [if_pos hc]
      rw [hnew { label := (n, ""), dtype := dt, values := vs } rfl,
        hnew c (eq_of_beq hc)]
    · rw [if_neg hc]
  · rw [if_neg h]
    simp [List.any_append, hnew { label := (n, ""), dtype := dt, values := vs } rfl]

/-! ## Claim theorems -/

/-- C1: for every table and every dict-shaped aggregation spec with a key
that is not a column of the table, `groupby_and_agg` emits the warning and
returns the original table unchanged, regardless of the remaining
arguments. -/
theorem groupby_and_agg_invalid_agg_key (df : DataFrame) (g : StrOrStrList)
    (entries : List (String × AggFuncSpec)) (cm : Bool) (rc : Option (List String))
    (kw : Option PyVal)
    (h : ∃ e ∈ entries, df.hasColName e.1 = false) :
    groupby_and_agg df g (.dictSpec entries) cm rc kw =
      (["Invalid column name passed in agg_ argument - returning original DataFrame"],
        .ok df) := by
  have hbad : aggKeysOk df (.dictSpec entries) = false := by
    obtain ⟨e, he, hne⟩ := h
    show (entries.all fun e => df.hasColName e.1) = false
    cases hall : entries.all (fun e => df.hasColName e.1) with
    | false => rfl
    | true =>
      have := List.all_eq_true.mp hall e he
      rw [hne] at this
      exact absurd this (by simp)
  unfold groupby_and_agg
  rw [hbad]
  rfl

/-- C1 witness: a concrete table with columns g, x and the spec key z. -/
theorem groupby_and_agg_invalid_agg_key_witness :
    groupby_and_agg dfGX (.many ["g"]) (.dictSpec [("z", .single "sum")]) true none none =
      (["Invalid column name passed in agg_ argument - returning original DataFrame"],
        .ok dfGX) :=
  groupby_and_agg_invalid_agg_key dfGX (.many ["g"]) [("z", .single "sum")] true none none
    ⟨("z", .single "sum"), by decide, by decide⟩

/-- C3: on rows (a,1), (a,3), (b,5), grouping by g with spec x to
[sum, mean], reset index and collapse gives flat columns
[g, x_sum, x_mean] and rows (a, 4, 2) and (b, 5, 5). -/
theorem groupby_and_agg_multi_agg_example :
    groupby_and_agg dfGX (.many ["g"]) (.dictSpec [("x", .multi ["sum", "mean"])]) true none
        (some (.boolV true)) =
      ([], .ok
        { indexCols := [], multiCols := false,
          cols := [
            { label := ("g", ""), dtype := .objT, values := [.str "a", .str "b"] },
            { label := ("x_sum", ""), dtype := .floatT, values := [.num 4, .num 5] },
            { label := ("x_mean", ""), dtype := .floatT, values := [.num 2, .num 5] } ] }) := by
  with_unfolding_all rfl

/-- C4: on rows (a,1), (a,3), (b,5), grouping by g with the scalar spec
x to sum and reset index gives flat columns [g, x] and rows (a, 4) and
(b, 5) (the collapse step only warns, since the columns are already
flat). -/
theorem groupby_and_agg_single_agg_example :
    groupby_and_agg dfGX (.many ["g"]) (.dictSpec [("x", .single "sum")]) true none
        (some (.boolV true)) =
      (["No MultiIndex detected. No column collapse wil be performed"], .ok
        { indexCols := [], multiCols := false,
          cols := [
            { label := ("g", ""), dtype := .objT, values := [.str "a", .str "b"] },
            { label := ("x", ""), dtype := .floatT, values := [.num 4, .num 5] } ] }) := by
  with_unfolding_all rfl

/-- C2 counterexample: when the aggregation-spec validation short-circuits
(dict key z is not a column), the call still returns a table even though
`return_cols` was given and the index was reset, and that table's columns
are the original ones, not groupby_cols ++ return_cols. -/
theorem groupby_and_agg_return_cols_cex :
    (groupby_and_agg dfGX (.many ["g"]) (.dictSpec [("z", .single "sum")]) true
        (some ["x_sum"]) (some (.boolV true))).2 = .ok dfGX ∧
    dfGX.colNames ≠ ["g"] ++ ["x_sum"] := by
  exact ⟨rfl, by decide⟩

/-- C2 (amended): provided the aggregation-spec validation passes, the
pipeline succeeds, and each requested column name matches exactly one
column of the aggregated frame, the returned table's columns are
groupby_cols ++ return_cols when the index was reset, and return_cols
exactly when it was not. -/
theorem groupby_and_agg_return_cols_amended (df : DataFrame) (gl rcs : List String)
    (agg_ : AggArg) (cm ri : Bool) (kw : Option PyVal) (ws : List String) (dfa : DataFrame)
    (hvalid : aggKeysOk df agg_ = true)
    (hkw : checkResetIndexKw kw = .ok ri)
    (hpipe : aggPipeline df gl agg_ cm ri = (ws, .ok dfa))
    (huniq : ∀ nm ∈ (if ri then gl ++ rcs else rcs),
      (dfa.cols.filter (fun c => c.label.1 == nm)).length = 1) :
    ∃ t : DataFrame, groupby_and_agg df (.many gl) agg_ cm (some rcs) kw = (ws, .ok t) ∧
      t.colNames = (if ri then gl ++ rcs else rcs) ∧ t.multiCols = dfa.multiCols := by
  cases ri with
  | true =>
    rw [if_pos rfl] at huniq
    obtain ⟨cs, hsel, hnames⟩ := select_of_unique dfa (gl ++ rcs) huniq
    refine ⟨{ dfa with cols := cs }, ?_, ?_, rfl⟩
    · simp only [groupby_and_agg, hvalid, hkw, StrOrStrList.toKeyList, hpipe, hsel,
        if_true, ite_true]
    · rw [if_pos rfl]
      exact hnames
  | false =>
    rw [if_neg (by simp)] at huniq
    obtain ⟨cs, hsel, hnames⟩ := select_of_unique dfa rcs huniq
    refine ⟨{ dfa with cols := cs }, ?_, ?_, rfl⟩
    · simp only [groupby_and_agg, hvalid, hkw, StrOrStrList.toKeyList, hpipe, hsel,
        if_true, ite_true, ite_false, Bool.false_eq_true, if_false]
    · rw [if_neg (by simp)]
      exact hnames

/-- The aggregated, reset and collapsed frame produced from `dfGX` by the
spec x to [sum] (used by the narrowing witness). -/
def dfGXagg : DataFrame :=
  { indexCols := [], multiCols := false,
    cols := [
      { label := ("g", ""), dtype := .objT, values := [.str "a", .str "b"] },
      { label := ("x_sum", ""), dtype := .floatT, values := [.num 4, .num 5] } ] }

/-- C2 witness: concrete instantiation of the amended narrowing claim. -/
theorem groupby_and_agg_return_cols_amended_witness :
    ∃ t : DataFrame,
      groupby_and_agg dfGX (.many ["g"]) (.dictSpec [("x", .multi ["sum"])]) true
          (some ["x_sum"]) none = ([], .ok t) ∧
      t.colNames = (if true then ["g"] ++ ["x_sum"] else ["x_sum"]) ∧
      t.multiCols = dfGXagg.multiCols :=
  groupby_and_agg_return_cols_amended dfGX ["g"] ["x_sum"]
    (.dictSpec [("x", .multi ["sum"])]) true true none [] dfGXagg
    (by decide) rfl (by with_unfolding_all rfl) (by decide)

/-- C5 counterexample: a pair whose second level itself ends in the
separator is not flattened to name_func, because the code strips one
trailing separator from the joined name. -/
theorem collapse_flatten_cex :
    collapseLabel ("x", "sum_") = "x_sum" ∧ ("x_sum" : String) ≠ "x" ++ "_" ++ "sum_" := by
  exact ⟨rfl, by decide⟩

/-- C5 (amended): on a two-level column structure the collapse step maps
every label pair through the pure syntactic transform `collapseLabel` and
touches no values; and for a function name that does not itself end in the
separator, `(name, func)` flattens to name_func, with the empty func
flattening to exactly name. -/
theorem collapse_flatten_amended (df : DataFrame) (name func : String)
    (hm : df.multiCols = true) (hf : func.data.getLast? ≠ some '_') :
    (collapseColumns df).2.cols.map (fun c => c.label) =
      df.cols.map (fun c => (collapseLabel c.label, "")) ∧
    (collapseColumns df).2.cols.map (fun c => c.values) =
      df.cols.map (fun c => c.values) ∧
    collapseLabel (name, func) = (if func = "" then name else name ++ "_" ++ func) := by
  refine ⟨?_, ?_, collapseLabel_eq name func hf⟩ <;>
    simp [collapseColumns, hm]

/-- C5 witness: the collapse of the concrete multi-level frame produced
from dfGX, and the two generic label shapes at concrete names. -/
theorem collapse_flatten_amended_witness :
    ((collapseColumns
        { indexCols := [], multiCols := true,
          cols := [
            { label := ("g", ""), dtype := .objT, values := [.str "a", .str "b"] },
            { label := ("x", "sum"), dtype := .floatT, values := [.num 4, .num 5] } ] }).2.cols.map
        (fun c => c.label) =
      [(("g" : String), ("" : String)), (("x_sum" : String), ("" : String))]) ∧
    collapseLabel ("x", "sum") = "x_sum" ∧ collapseLabel ("g", "") = "g" := by
  have h1 := collapse_flatten_amended
    { indexCols := [], multiCols := true,
      cols := [
        { label := ("g", ""), dtype := .objT, values := [.str "a", .str "b"] },
        { label := ("x", "sum"), dtype := .floatT, values := [.num 4, .num 5] } ] }
    "x" "sum" rfl (by decide)
  have h2 := collapse_flatten_amended
    { indexCols := [], multiCols := true,
      cols := [
        { label := ("g", ""), dtype := .objT, values := [.str "a", .str "b"] },
        { label := ("x", "sum"), dtype := .floatT, values := [.num 4, .num 5] } ] }
    "g" "" rfl (by decide)
  refine ⟨?_, ?_, ?_⟩
  · rw [h1.1]
    decide
  · rw [h1.2.2]
    decide
  · rw [h2.2.2]
    decide

/-- C9 counterexample: a call passing a non-boolean reset_index does not
fail with an assertion error when the aggregation-spec validation
short-circuits first; it returns the original frame. -/
theorem reset_index_assert_cex :
    (groupby_and_agg dfGX (.many ["g"]) (.dictSpec [("z", .single "sum")]) true none
        (some (.intV 1))).2 = .ok dfGX ∧
    (Except.ok dfGX : Except PyError DataFrame) ≠ .error .assertionError := by
  refine ⟨rfl, ?_⟩
  intro h
  exact Except.noConfusion h

/-- C9 (amended): provided the aggregation-spec validation passes, a call
passing a non-boolean reset_index fails with an assertion error before any
grouping or aggregation (the result is the bare assertion error for every
groupby_cols, spec, collapse flag and return_cols). -/
theorem reset_index_assert_amended (df : DataFrame) (g : StrOrStrList) (agg_ : AggArg)
    (cm : Bool) (rc : Option (List String)) (v : PyVal)
    (hvalid : aggKeysOk df agg_ = true) (hv : v.isBool = false) :
    groupby_and_agg df g agg_ cm rc (some v) = ([], .error .assertionError) := by
  have hkw : checkResetIndexKw (some v) = .error .assertionError := by
    cases v with
    | boolV b => exact absurd hv (by simp [PyVal.isBool])
    | intV n => rfl
    | strV s => rfl
    | noneV => rfl
  simp only [groupby_and_agg, hvalid, hkw, if_true, ite_true]

/-- C9 witness: a concrete non-boolean reset_index with a valid spec (note
the groupby column z does not even exist: the assert fires first). -/
theorem reset_index_assert_amended_witness :
    groupby_and_agg dfGX (.many ["z"]) (.dictSpec [("x", .single "sum")]) true none
        (some (.strV "True")) = ([], .error .assertionError) :=
  reset_index_assert_amended dfGX (.many ["z"]) (.dictSpec [("x", .single "sum")]) true none
    (.strV "True") (by decide) (by decide)

/-- C10: when groupby_cols is a single string, return_cols is given and the
index is reset (explicitly or by default), a call that reaches the
column-narrowing step fails there with a type error (the string is
concatenated with the return_cols list). -/
theorem groupby_string_prepend_type_error (df : DataFrame) (s : String) (agg_ : AggArg)
    (cm : Bool) (rcs : List String) (kw : Option PyVal) (ws : List String) (dfa : DataFrame)
    (hvalid : aggKeysOk df agg_ = true)
    (hkw : checkResetIndexKw kw = .ok true)
    (hpipe : aggPipeline df [s] agg_ cm true = (ws, .ok dfa)) :
    groupby_and_agg df (.one s) agg_ cm (some rcs) kw = (ws, .error .typeError) := by
  simp only [groupby_and_agg, hvalid, hkw, StrOrStrList.toKeyList, hpipe, if_true, ite_true]

/-- The aggregated flat frame produced from `dfGX` by the scalar spec
x to sum with a string groupby column (used by the type-error witness). -/
def dfGXaggFlat : DataFrame :=
  { indexCols := [], multiCols := false,
    cols := [
      { label := ("g", ""), dtype := .objT, values := [.str "a", .str "b"] },
      { label := ("x", ""), dtype := .floatT, values := [.num 4, .num 5] } ] }

/-- C10 witness: a concrete call with a string groupby column. -/
theorem groupby_string_prepend_type_error_witness :
    groupby_and_agg dfGX (.one "g") (.dictSpec [("x", .single "sum")]) true (some ["x"])
        none =
      (["No MultiIndex detected. No column collapse wil be performed"],
        .error .typeError) :=
  groupby_string_prepend_type_error dfGX "g" (.dictSpec [("x", .single "sum")]) true
    ["x"] none ["No MultiIndex detected. No column collapse wil be performed"]
    dfGXaggFlat (by decide) rfl (by with_unfolding_all rfl)

/-- C6 counterexample: with an empty file_type string the call fails with
an IndexError from the leading-character check, not with the InvalidLevel
ValueError, even though the level is invalid. -/
theorem load_data_invalid_level_cex :
    DirectoryMapper.load_data { project_name := "proj", base_dir := "base" } "f"
        (some "bogus") "" = .error .indexError ∧
    PyError.indexError ≠ PyError.valueError "Please provide valid level" := by
  exact ⟨rfl, by decide⟩

/-- C6 (amended): for every file_name and every nonempty file_type, a
non-null level that is not one of raw, interim, processed, external makes
`load_data` fail with the InvalidLevel ValueError; no reader is dispatched
(the file-type branch is never consulted, whatever file_type holds). -/
theorem load_data_invalid_level (m : DirectoryMapper) (fn ft lv : String)
    (hft : ft ≠ "")
    (h1 : lv ≠ "raw") (h2 : lv ≠ "interim") (h3 : lv ≠ "processed") (h4 : lv ≠ "external") :
    m.load_data fn (some lv) ft = .error (.valueError "Please provide valid level") := by
  simp only [DirectoryMapper.load_data, if_neg hft, if_neg h1, if_neg h2, if_neg h3,
    if_neg h4]

/-- C6 witness: a bogus level with a mapper, file name and file type. -/
theorem load_data_invalid_level_witness :
    DirectoryMapper.load_data { project_name := "proj", base_dir := "base" } "f"
        (some "bogus") "parquet" = .error (.valueError "Please provide valid level") :=
  load_data_invalid_level { project_name := "proj", base_dir := "base" } "f" "parquet"
    "bogus" (by decide) (by decide) (by decide) (by decide) (by decide)

/-- C7: for every valid level and every file_type whose stripped form is
parquet or csv, `load_data` dispatches the matching reader on the path
level_dir/file_name.file_type; with level None the path is
file_name.file_type with no directory prefix. -/
theorem load_data_path_resolution (m : DirectoryMapper) (fn ft lv : String)
    (hft : ft ≠ "")
    (hp : (if ft.front = '.' then ft.drop 1 else ft) = "parquet" ∨
          (if ft.front = '.' then ft.drop 1 else ft) = "csv")
    (hlv : lv = "raw" ∨ lv = "interim" ∨ lv = "processed" ∨ lv = "external") :
    m.load_data fn (some lv) ft =
      .ok (mkRead (if ft.front = '.' then ft.drop 1 else ft)
        (joinPath (m.levelDir lv) (fn ++ "." ++ (if ft.front = '.' then ft.drop 1 else ft)))) ∧
    m.load_data fn none ft =
      .ok (mkRead (if ft.front = '.' then ft.drop 1 else ft)
        (fn ++ "." ++ (if ft.front = '.' then ft.drop 1 else ft))) := by
  constructor
  · rcases hlv with h | h | h | h <;> subst h <;> rcases hp with h2 | h2 <;>
      simp [DirectoryMapper.load_data, DirectoryMapper.levelDir, mkRead, hft, h2]
  · rcases hp with h2 | h2 <;>
      simp [DirectoryMapper.load_data, mkRead, hft, h2]

/-- C7 witness: the raw level with a dotted parquet file type. -/
theorem load_data_path_resolution_witness :
    DirectoryMapper.load_data { project_name := "proj", base_dir := "base" } "t"
        (some "raw") ".parquet" =
      .ok (mkRead (if (".parquet" : String).front = '.' then (".parquet" : String).drop 1
          else ".parquet")
        (joinPath
          (DirectoryMapper.levelDir { project_name := "proj", base_dir := "base" } "raw")
          ("t" ++ "." ++ (if (".parquet" : String).front = '.' then
            (".parquet" : String).drop 1 else ".parquet")))) ∧
    DirectoryMapper.load_data { project_name := "proj", base_dir := "base" } "t"
        none ".parquet" =
      .ok (mkRead (if (".parquet" : String).front = '.' then (".parquet" : String).drop 1
          else ".parquet")
        ("t" ++ "." ++ (if (".parquet" : String).front = '.' then
          (".parquet" : String).drop 1 else ".parquet"))) :=
  load_data_path_resolution { project_name := "proj", base_dir := "base" } "t" ".parquet"
    "raw" (by decide) (Or.inl (by decide)) (Or.inl rfl)

/-- Presence of a column with the given flat name and integer dtype. -/
def DataFrame.hasIntColName (df : DataFrame) (a : String) : Bool :=
  df.cols.any (fun c => c.label.1 == a && c.dtype == DType.intT)

/-- C8: on a table whose only datetime column is d, deriving date parts
adds the integer columns d_YEAR and d_MONTH; with drop_date_cols true the
column d is removed, with drop_date_cols false it remains. -/
theorem create_date_parts_single_date_col (df : DataFrame) (d : String)
    (hdc : (df.cols.filter (fun c => c.dtype == DType.dateT)).map (fun c => c.label.1) =
      [d]) :
    ((create_date_parts df true).hasIntColName (d ++ "_YEAR") = true ∧
     (create_date_parts df true).hasIntColName (d ++ "_MONTH") = true ∧
     (create_date_parts df true).hasColName d = false) ∧
    ((create_date_parts df false).hasIntColName (d ++ "_YEAR") = true ∧
     (create_date_parts df false).hasIntColName (d ++ "_MONTH") = true ∧
     (create_date_parts df false).hasColName d = true) := by
  have h5 : ("_YEAR" : String).length = 5 := rfl
  have h6 : ("_MONTH" : String).length = 6 := rfl
  have hYd : d ++ "_YEAR" ≠ d := by
    intro h
    have hlen := congrArg String.length h
    rw [String.length_append, h5] at hlen
    omega
  have hMd : d ++ "_MONTH" ≠ d := by
    intro h
    have hlen := congrArg String.length h
    rw [String.length_append, h6] at hlen
    omega
  have hMY : d ++ "_MONTH" ≠ d ++ "_YEAR" := by
    intro h
    have hlen := congrArg String.length h
    rw [String.length_append, String.length_append, h5, h6] at hlen
    omega
  have hd_mem : d ∈ (df.cols.filter (fun c => c.dtype == DType.dateT)).map
      (fun c => c.label.1) := by
    rw [hdc]
    exact List.mem_singleton_self d
  obtain ⟨c0, hc0fil, hc0d⟩ := List.mem_map.mp hd_mem
  have hd_true : df.cols.any (fun c => c.label.1 == d) = true := by
    apply List.any_eq_true.mpr
    refine ⟨c0, (List.mem_filter.mp hc0fil).1, ?_⟩
    rw [hc0d]
    exact beq_self_eq_true d
  have hq1 : ∀ c : Col, c.label.1 = d ++ "_MONTH" →
      ((c.label.1 == d ++ "_YEAR") && (c.dtype == DType.intT)) = false := by
    intro c hc
    rw [hc, show ((d ++ "_MONTH") == d ++ "_YEAR") = false from
      beq_eq_false_iff_ne.mpr hMY]
    rfl
  have hqd1 : ∀ c : Col, c.label.1 = d ++ "_MONTH" → (c.label.1 == d) = false := by
    intro c hc
    rw [hc]
    exact beq_eq_false_iff_ne.mpr hMd
  have hqd2 : ∀ c : Col, c.label.1 = d ++ "_YEAR" → (c.label.1 == d) = false := by
    intro c hc
    rw [hc]
    exact beq_eq_false_iff_ne.mpr hYd
  have hY2 : (addDateParts df d).cols.any
      (fun c => c.label.1 == d ++ "_YEAR" && c.dtype == DType.intT) = true := by
    simp only [addDateParts]
    rw [setCol_any_of_name_ne _ _ _ _ _ hq1]
    apply setCol_any_self
    simp
  have hM2 : (addDateParts df d).cols.any
      (fun c => c.label.1 == d ++ "_MONTH" && c.dtype == DType.intT) = true := by
    simp only [addDateParts]
    apply setCol_any_self
    simp
  have hd2 : (addDateParts df d).cols.any (fun c => c.label.1 == d) = true := by
    simp only [addDateParts]
    rw [setCol_any_of_name_ne _ _ _ _ _ hqd1, setCol_any_of_name_ne _ _ _ _ _ hqd2]
    exact hd_true
  have hrw : ∀ dc : Bool, create_date_parts df dc =
      (if dc then
        { addDateParts df d with
          cols := (addDateParts df d).cols.filter
            (fun c => !(List.contains [d] c.label.1)) }
      else addDateParts df d) := by
    intro dc
    simp only [create_date_parts, hdc, List.foldl_cons, List.foldl_nil]
  rw [hrw true, hrw false, if_pos rfl, if_neg (by simp)]
  refine ⟨⟨?_, ?_, ?_⟩, ?_, ?_, ?_⟩
  · simp only [DataFrame.hasIntColName, List.any_filter]
    apply List.any_eq_true.mpr
    obtain ⟨c, hcmem, hcq⟩ := List.any_eq_true.mp hY2
    have hcq' := hcq
    rw [Bool.and_eq_true] at hcq'
    have hclab : c.label.1 = d ++ "_YEAR" := eq_of_beq hcq'.1
    refine ⟨c, hcmem, ?_⟩
    rw [Bool.and_eq_true]
    refine ⟨?_, hcq⟩
    rw [hclab]
    simp [hYd]
  · simp only [DataFrame.hasIntColName, List.any_filter]
    apply List.any_eq_true.mpr
    obtain ⟨c, hcmem, hcq⟩ := List.any_eq_true.mp hM2
    have hcq' := hcq
    rw [Bool.and_eq_true] at hcq'
    have hclab : c.label.1 = d ++ "_MONTH" := eq_of_beq hcq'.1
    refine ⟨c, hcmem, ?_⟩
    rw [Bool.and_eq_true]
    refine ⟨?_, hcq⟩
    rw [hclab]
    simp [hMd]
  · simp only [DataFrame.hasColName, List.any_filter]
    apply List.any_eq_false.mpr
    intro c hcmem hcon
    rw [Bool.and_eq_true] at hcon
    obtain ⟨hp, hq⟩ := hcon
    have hclab : c.label.1 = d := eq_of_beq hq
    rw [hclab] at hp
    simp at hp
  · simp only [DataFrame.hasIntColName]
    exact hY2
  · simp only [DataFrame.hasIntColName]
    exact hM2
  · simp only [DataFrame.hasColName]
    exact hd2

/-- C8 witness: the concrete frame with one datetime column d. -/
theorem create_date_parts_single_date_col_witness :
    ((create_date_parts dfDates true).hasIntColName ("d" ++ "_YEAR") = true ∧
     (create_date_parts dfDates true).hasIntColName ("d" ++ "_MONTH") = true ∧
     (create_date_parts dfDates true).hasColName "d" = false) ∧
    ((create_date_parts dfDates false).hasIntColName ("d" ++ "_YEAR") = true ∧
     (create_date_parts dfDates false).hasIntColName ("d" ++ "_MONTH") = true ∧
     (create_date_parts dfDates false).hasColName "d" = true) :=
  create_date_parts_single_date_col dfDates "d" (by decide)
